import Mathlib

/-!
Verification of the acquisition/resilience layer of the energy-analyzer
repository (`src/data_fetcher.py`, constants from `src/constants.py`).

Modelling conventions:
* Python floats are modelled as exact rationals (`ℚ`); all arithmetic in the
  source is elementary (+, *, /, abs, %), so the rational model mirrors the
  algorithms exactly.
* Python dicts are modelled as insertion-ordered association lists with the
  overwrite-on-existing-key semantics of `dict.__setitem__` (`dictSet`).
* The network is modelled as an oracle `ℕ → NetOutcome` giving the outcome of
  the n-th HTTP request issued by a call; exceptions raised inside a `try`
  block are modelled with `Except PyError`, and the `except` clauses of the
  source are translated branch for branch.
* `time.time()` and `datetime.now().hour` are passed in explicitly (`now`,
  `current_hour`), since the source reads them from the ambient clock.
* The single Python dict `self.cache` holds per-source snapshots under string
  keys and recommendation texts under int (`hash`) keys; the two key spaces
  are disjoint in Python, so they are modelled as two separate maps.
-/

namespace EnergyAnalyzer

/-- Generic Python-dict assignment on an insertion-ordered association list:
if the key is present its value is replaced in place, otherwise the pair is
appended (insertion order preserved), as `d[k] = v` does. -/
def dictSet {κ α : Type} [DecidableEq κ] (m : List (κ × α)) (k : κ) (v : α) :
    List (κ × α) :=
  if m.any (fun p => decide (p.1 = k)) then
    m.map (fun p => if p.1 = k then (k, v) else p)
  else m ++ [(k, v)]

/-- Python-dict lookup `d.get(k)`: the value at the (unique) matching key. -/
def dictGet? {κ α : Type} [DecidableEq κ] (m : List (κ × α)) (k : κ) :
    Option α :=
  (m.find? (fun p => decide (p.1 = k))).map Prod.snd

/-- `ENERGY_SOURCES` from `constants.py`: name ↦ (base_prod, base_cost). -/
def ENERGY_SOURCES : List (String × (ℚ × ℚ)) :=
  [("Solar", (1000, 0.1)), ("Wind", (800, 0.08)),
   ("Coal", (500, 0.15)), ("Natural Gas", (600, 0.12))]

/-- `ENERGY_SOURCES.get(source, {'base_prod': 500, 'base_cost': 0.1})`,
projected to `base_prod`. -/
def sourceBaseProd (source : String) : ℚ :=
  ((dictGet? ENERGY_SOURCES source).getD (500, 0.1)).1

/-- `ENERGY_SOURCES.get(source, {'base_prod': 500, 'base_cost': 0.1})`,
projected to `base_cost`. -/
def sourceBaseCost (source : String) : ℚ :=
  ((dictGet? ENERGY_SOURCES source).getD (500, 0.1)).2

/-- `EnergyDataFetcher._calculate_efficiency(source, hour)`.  Python `abs` on
ints is modelled through `ℤ`; `hour % 4` is Python's nonnegative `%`. -/
def calculate_efficiency (source : String) (hour : ℕ) : ℚ :=
  if source = "Solar" then
    if 6 ≤ hour ∧ hour ≤ 18 then
      (8 / 10) * (1 - ((|(hour : ℤ) - 12| : ℤ) : ℚ) / 12)
    else 1 / 10
  else if source = "Wind" then 7 / 10 + ((hour % 4 : ℕ) : ℚ) * (1 / 10)
  else 85 / 100

/-- The `base_costs` table local to `_calculate_cost`, with its `.get`
default `0.1`. -/
def calcCostBase (source : String) : ℚ :=
  (dictGet? [("Solar", (0.1 : ℚ)), ("Wind", 0.08), ("Coal", 0.15),
             ("Natural Gas", 0.12)] source).getD 0.1

/-- `EnergyDataFetcher._calculate_cost(source, efficiency, production)`
(the `production` argument is unused in the source). -/
def calculate_cost (source : String) (efficiency : ℚ) : ℚ :=
  calcCostBase source / (if efficiency > 0 then efficiency else 1)

/-- The list `hours = [(current_hour - i) % 24 for i in range(24)]` built at
the top of `_get_fallback_hourly_data`, `_process_hourly_data` and
`analyze_hourly_metrics`; Python's `%` on ints agrees with `Int.emod` for a
positive modulus. -/
def hoursList (current_hour : ℕ) : List ℕ :=
  (List.range 24).map (fun i => (((current_hour : ℤ) - (i : ℤ)) % 24).toNat)

/-- A snapshot as built by `_get_fallback_hourly_data` /
`_process_hourly_data`: the scalar aggregates plus the three hourly dicts
(the `timestamp` iso-string field is not modelled; no claim concerns it). -/
structure HourlyData where
  production : ℚ
  efficiency : ℚ
  cost : ℚ
  hourly_production : List (ℕ × ℚ)
  hourly_efficiency : List (ℕ × ℚ)
  hourly_cost : List (ℕ × ℚ)
deriving DecidableEq, Repr

/-- The dict built by `for hour in hours: d[hour] = g hour` (each of the three
parallel dicts of the source loops is an instance, since every stored value
depends only on the key). -/
def buildHourlyDict (hs : List ℕ) (g : ℕ → ℚ) : List (ℕ × ℚ) :=
  hs.foldl (fun m h => dictSet m h (g h)) []

/-- `EnergyDataFetcher._get_fallback_hourly_data(source)`; `current_hour` is
`datetime.now().hour`. -/
def get_fallback_hourly_data (source : String) (current_hour : ℕ) :
    HourlyData :=
  let hours := hoursList current_hour
  let effF := fun h => calculate_efficiency source h
  let prodF := fun h => sourceBaseProd source * effF h
  let costF := fun h =>
    sourceBaseCost source / (if effF h > 0 then effF h else 1)
  let hp := buildHourlyDict hours prodF
  let he := buildHourlyDict hours effF
  let hc := buildHourlyDict hours costF
  { production := (hp.map Prod.snd).sum / 24
    efficiency := (he.map Prod.snd).sum / 24
    cost := (hc.map Prod.snd).sum / 24
    hourly_production := hp
    hourly_efficiency := he
    hourly_cost := hc }

/-- `api_data[hour] if hour < len(api_data) else api_data[-1]` from
`_process_hourly_data` (the `api_data[-1]` default value `0` is never used:
the caller guarantees a non-empty list). -/
def dataPointAt (api_data : List ℚ) (hour : ℕ) : ℚ :=
  if hour < api_data.length then api_data.getD hour 0
  else api_data.getLast?.getD 0

/-- `EnergyDataFetcher._process_hourly_data(source, data, current_hour)`.
`api_data` is the (already JSON-parsed) `data['response']['data']` array, each
point reduced to its `float(point.get('value', 0))`.  An empty array raises
`ValueError`, caught by the function's own `except` which returns the
fallback snapshot. -/
def process_hourly_data (source : String) (api_data : List ℚ)
    (current_hour : ℕ) : HourlyData :=
  if api_data.isEmpty then get_fallback_hourly_data source current_hour
  else
    let hours := hoursList current_hour
    let effF := fun h => calculate_efficiency source h
    let prodF := fun h => dataPointAt api_data h
    let costF := fun h => calculate_cost source (effF h)
    let hp := buildHourlyDict hours prodF
    let he := buildHourlyDict hours effF
    let hc := buildHourlyDict hours costF
    { production := (hp.map Prod.snd).sum / (hours.length : ℚ)
      efficiency := (he.map Prod.snd).sum / (hours.length : ℚ)
      cost := (hc.map Prod.snd).sum / (hours.length : ℚ)
      hourly_production := hp
      hourly_efficiency := he
      hourly_cost := hc }

/-- `self.cache` restricted to its string keys: source name ↦
(insertion `timestamp`, snapshot `data`), as written by `_update_cache`. -/
def CacheMap : Type := List (String × (ℚ × HourlyData))

instance : DecidableEq CacheMap := by unfold CacheMap; infer_instance

/-- `self.cache_duration = 300` set in `__init__`. -/
def cache_duration : ℚ := 300

/-- `EnergyDataFetcher._is_cache_valid(source)`; `now` is `time.time()`. -/
def is_cache_valid (cache : CacheMap) (source : String) (now : ℚ) : Bool :=
  match dictGet? cache source with
  | some e => decide (now - e.1 < cache_duration)
  | none => false

/-- `EnergyDataFetcher._update_cache(source, data)`. -/
def update_cache (cache : CacheMap) (source : String) (now : ℚ)
    (data : HourlyData) : CacheMap :=
  dictSet cache source (now, data)

/-- Outcome of one HTTP GET against the data endpoint, as seen by
`fetch_realtime_data`: a response with its status code and the parse of
`response.json()['response']['data']` (reduced to the points' numeric
values; `none` = the body fails to parse as JSON), or one of the exception
classes a `requests` call can raise. -/
inductive NetOutcome where
  | status (code : ℕ) (body : Option (List ℚ))
  | timeout
  | connError
  | otherExc
deriving DecidableEq

/-- The exceptions that can be raised inside the `try` block of
`fetch_realtime_data`, matching its `except` clauses: the two retryable
network errors, `ValueError` (empty data), a JSON decode error, and the
catch-all class of any other exception. -/
inductive PyError where
  | timeoutErr
  | connErr
  | valueErr
  | jsonErr
  | otherErr
deriving DecidableEq

/-- Result of a whole `fetch_realtime_data` call: the returned snapshot, the
cache afterwards, how many HTTP requests were issued and the durations of the
`time.sleep` calls performed (in order). -/
structure FetchResult where
  data : HourlyData
  cache : CacheMap
  netCalls : ℕ
  sleeps : List ℕ
deriving DecidableEq

instance {ε α : Type} [DecidableEq ε] [DecidableEq α] :
    DecidableEq (Except ε α) := fun a b =>
  match a, b with
  | .ok x, .ok y =>
      if h : x = y then isTrue (by rw [h]) else isFalse (by simp [h])
  | .error e, .error f =>
      if h : e = f then isTrue (by rw [h]) else isFalse (by simp [h])
  | .ok _, .error _ => isFalse (fun hc => Except.noConfusion hc)
  | .error _, .ok _ => isFalse (fun hc => Except.noConfusion hc)

/-- What one pass through the `try` body of the attempt loop does before any
`except` clause runs: return a value (with the possibly-updated cache), hit
the `500`-with-attempts-remaining branch (sleep then `continue`), or raise. -/
inductive TryRes where
  | ret (d : HourlyData) (newCache : CacheMap)
  | retryServer
deriving DecidableEq

/-- The `try` body of one iteration of the attempt loop of
`fetch_realtime_data` (lines 48–86 of `data_fetcher.py`), translated branch
for branch; `calls` indexes the oracle with the number of requests already
issued. -/
def fetchTryBody (source : String) (oracle : ℕ → NetOutcome) (now : ℚ)
    (current_hour : ℕ) (max_retries attempt calls : ℕ) (cache : CacheMap) :
    Except PyError TryRes :=
  if is_cache_valid cache source now then
    match dictGet? cache source with
    | some e => .ok (.ret e.2 cache)
    | none => .error .otherErr
  else
    match oracle calls with
    | .timeout => .error .timeoutErr
    | .connError => .error .connErr
    | .otherExc => .error .otherErr
    | .status code body =>
      if code = 200 then
        match body with
        | none => .error .jsonErr
        | some [] => .error .valueErr
        | some (p :: ps) =>
          let hd := process_hourly_data source (p :: ps) current_hour
          .ok (.ret hd (update_cache cache source now hd))
      else if code = 500 ∧ attempt < max_retries - 1 then .ok .retryServer
      else .ok (.ret (get_fallback_hourly_data source current_hour) cache)

/-- The attempt loop of `fetch_realtime_data`, structurally recursive on the
number of remaining iterations (`remaining = max_retries - attempt`); the
`except` clauses are applied to the `try` body's outcome exactly as in the
source, and the `remaining = 0` case is the `return` after the loop. -/
def fetchAux (source : String) (oracle : ℕ → NetOutcome) (now : ℚ)
    (current_hour : ℕ) (max_retries : ℕ) :
    (remaining attempt calls : ℕ) → List ℕ → CacheMap →
      Except PyError FetchResult
  | 0, _, calls, sleeps, cache =>
      .ok ⟨get_fallback_hourly_data source current_hour, cache, calls, sleeps⟩
  | remaining + 1, attempt, calls, sleeps, cache =>
      let calls2 := if is_cache_valid cache source now then calls else calls + 1
      match fetchTryBody source oracle now current_hour max_retries attempt
          calls cache with
      | .ok (.ret d c2) => .ok ⟨d, c2, calls2, sleeps⟩
      | .ok .retryServer =>
          fetchAux source oracle now current_hour max_retries remaining
            (attempt + 1) calls2 (sleeps ++ [2 ^ attempt]) cache
      | .error .timeoutErr =>
          if attempt < max_retries - 1 then
            fetchAux source oracle now current_hour max_retries remaining
              (attempt + 1) calls2 (sleeps ++ [2 ^ attempt]) cache
          else
            .ok ⟨get_fallback_hourly_data source current_hour, cache, calls2,
                 sleeps⟩
      | .error .connErr =>
          if attempt < max_retries - 1 then
            fetchAux source oracle now current_hour max_retries remaining
              (attempt + 1) calls2 (sleeps ++ [2 ^ attempt]) cache
          else
            .ok ⟨get_fallback_hourly_data source current_hour, cache, calls2,
                 sleeps⟩
      | .error _ =>
          .ok ⟨get_fallback_hourly_data source current_hour, cache, calls2,
               sleeps⟩

/-- `EnergyDataFetcher.fetch_realtime_data(source, max_retries = 3)`. -/
def fetch_realtime_data (source : String) (oracle : ℕ → NetOutcome) (now : ℚ)
    (current_hour : ℕ) (cache : CacheMap) (max_retries : ℕ := 3) :
    Except PyError FetchResult :=
  fetchAux source oracle now current_hour max_retries max_retries 0 0 [] cache

/-- `self.cache` restricted to its int keys: `hash(analysis_text)` ↦
(insertion timestamp, recommendation text), as written by
`get_llm_recommendations` on a 200 response. -/
def LlmCache : Type := List (ℤ × (ℚ × String))

instance : DecidableEq LlmCache := by unfold LlmCache; infer_instance

/-- The state assembled by `EnergyDataFetcher.__init__`: the API key, the
`deepseek_headers` attribute (which `__init__` never assigns — only
`eia_headers` is set — so it is `none` after construction), and the cache in
its two key spaces.  The `requests.Session`, adapter and `eia_headers`
values have no bearing on any claim and are not modelled. -/
structure FetcherState where
  api_key : String
  deepseek_headers : Option (List (String × String))
  cache : CacheMap
  llmCache : LlmCache

/-- `EnergyDataFetcher.__init__`, parameterized by the value of
`os.getenv('ENERGY_API_KEY')`; it raises `ValueError` exactly when the key is
falsy (unset, or set to the empty string). -/
def EnergyDataFetcher_init (env_api_key : Option String) :
    Except String FetcherState :=
  match env_api_key with
  | none => .error "ENERGY_API_KEY not found in environment"
  | some k =>
    if k = "" then .error "ENERGY_API_KEY not found in environment"
    else .ok { api_key := k, deepseek_headers := none, cache := [],
               llmCache := [] }

/-- One response of the completion endpoint as consumed by
`get_llm_recommendations`: the status code, the parse of
`response.json()['choices'][0]['message']['content']` (`none` = the access
raises), the parsed `Retry-After` header if present, and the parse of
`response.json().get('error', {}).get('message')` (outer `none` = the body
fails to parse as JSON, inner `none` = no message field). -/
structure LlmResponse where
  status : ℕ
  content : Option String
  retryAfter : Option ℕ
  errMsg : Option (Option String)
deriving DecidableEq

/-- Outcome of one HTTP POST in `get_llm_recommendations`. -/
inductive LlmOutcome where
  | resp (r : LlmResponse)
  | timeout
  | connError
  | otherExc
deriving DecidableEq

/-- Result of a whole `get_llm_recommendations` call. -/
structure LlmResult where
  text : String
  llmCache : LlmCache
  calls : ℕ
  sleeps : List ℕ
deriving DecidableEq

/-- `EnergyDataFetcher._get_fallback_recommendations()` (whitespace of the
Python triple-quoted literal normalised; only its identity as a fixed string
matters to the claims). -/
def get_fallback_recommendations : String :=
  "Basic Energy Management Recommendations:\n\n" ++
  "Cost Optimization:\n" ++
  "- Monitor and reduce peak demand usage\n" ++
  "- Schedule operations during off-peak hours\n" ++
  "- Regular maintenance of equipment\n\n" ++
  "Efficiency Improvements:\n" ++
  "- Implement energy monitoring systems\n" ++
  "- Upgrade to energy-efficient equipment\n" ++
  "- Regular system optimization\n\n" ++
  "Environmental Impact:\n" ++
  "- Increase renewable energy usage\n" ++
  "- Implement energy conservation measures\n" ++
  "- Monitor and reduce emissions\n\n" ++
  "Note: These are general recommendations. For more specific advice,\n" ++
  "please try again when the service is available."

/-- The cache probe at the top of each iteration of
`get_llm_recommendations`: `some text` when `hash(analysis_text)` is present
and fresh, `none` otherwise (an absent key and a stale entry both fall
through to the request). -/
def llmCacheFresh (c : LlmCache) (key : ℤ) (now : ℚ) : Option String :=
  match dictGet? c key with
  | some e => if now - e.1 < cache_duration then some e.2 else none
  | none => none

/-- The attempt loop of `get_llm_recommendations` (`max_retries = 3`,
`retry_delay = 2` fixed in the source), translated branch for branch.
`headersAttr` is the value of the `deepseek_headers` attribute: when it is
absent (`none`), evaluating `self.deepseek_headers` raises `AttributeError`
before the POST is issued, which the catch-all `except Exception` converts to
the static fallback text.  `key` is `hash(analysis_text)`. -/
def llmAux (headersAttr : Option (List (String × String))) (key : ℤ)
    (oracle : ℕ → LlmOutcome) (now : ℚ) (max_retries : ℕ) :
    (remaining attempt calls : ℕ) → List ℕ → LlmCache → LlmResult
  | 0, _, calls, sleeps, c =>
      ⟨"Failed to generate recommendations after multiple attempts.", c,
       calls, sleeps⟩
  | remaining + 1, attempt, calls, sleeps, c =>
      match llmCacheFresh c key now with
      | some text => ⟨text, c, calls, sleeps⟩
      | none =>
        match headersAttr with
        | none => ⟨get_fallback_recommendations, c, calls, sleeps⟩
        | some _ =>
          match oracle calls with
          | .timeout =>
              if attempt < max_retries - 1 then
                llmAux headersAttr key oracle now max_retries remaining
                  (attempt + 1) (calls + 1) (sleeps ++ [2]) c
              else ⟨"Request timed out. Please try again.", c, calls + 1,
                    sleeps⟩
          | .connError =>
              ⟨"Network error occurred. Please check your internet connection.",
               c, calls + 1, sleeps⟩
          | .otherExc =>
              ⟨get_fallback_recommendations, c, calls + 1, sleeps⟩
          | .resp rsp =>
            if rsp.status = 200 then
              match rsp.content with
              | none => ⟨get_fallback_recommendations, c, calls + 1, sleeps⟩
              | some text =>
                  ⟨text, dictSet c key (now, text), calls + 1, sleeps⟩
            else if rsp.status = 401 then
              ⟨"API Authentication failed. Please check your API key configuration.",
               c, calls + 1, sleeps⟩
            else if rsp.status = 429 then
              if attempt < max_retries - 1 then
                llmAux headersAttr key oracle now max_retries remaining
                  (attempt + 1) (calls + 1) (sleeps ++ [rsp.retryAfter.getD 2]) c
              else ⟨"Rate limit exceeded. Please try again later.", c,
                    calls + 1, sleeps⟩
            else
              match rsp.errMsg with
              | none => ⟨get_fallback_recommendations, c, calls + 1, sleeps⟩
              | some m =>
                  ⟨"Unable to generate recommendations: " ++
                     m.getD "Unknown error", c, calls + 1, sleeps⟩

/-- `EnergyDataFetcher.get_llm_recommendations(analysis_text)`;
`key = hash(analysis_text)` is passed in since Python's string hash is
process-dependent. -/
def get_llm_recommendations (headersAttr : Option (List (String × String)))
    (key : ℤ) (oracle : ℕ → LlmOutcome) (now : ℚ) (c : LlmCache) :
    LlmResult :=
  llmAux headersAttr key oracle now 3 3 0 0 [] c

/-- `ENERGY_SOURCES.keys()` in source iteration order. -/
def sourceNames : List String := ["Solar", "Wind", "Coal", "Natural Gas"]

/-- The per-source text block appended by `analyze_hourly_metrics` for a
valid source (the quantities that get formatted into its bullet lines). -/
structure SourceBlock where
  name : String
  avg_prod : ℚ
  avg_eff : ℚ
  avg_cost : ℚ
  peak_hour : ℕ
  low_hour : ℕ
deriving DecidableEq, Repr

/-- The system-wide metrics block of `analyze_hourly_metrics`. -/
structure SystemBlock where
  total_avg : ℚ
  peak_hour : ℕ
  low_hour : ℕ
  ratio : ℚ
deriving DecidableEq, Repr

/-- The shape of the string returned by `analyze_hourly_metrics`: one of the
two fixed messages, or the assembled report (per-source blocks in iteration
order, and the system-wide metrics block — `none` standing for its
"No valid production data" variant; in both variants the
`=== System-wide Metrics ===` heading is rendered). -/
inductive AnalyzeReport where
  | noData
  | noValidData
  | report (blocks : List SourceBlock) (system : Option SystemBlock)
deriving DecidableEq, Repr

/-- Python `max(hs, key = f)`: the first element attaining the maximum. -/
def argmaxFirst (hs : List ℕ) (f : ℕ → ℚ) : ℕ :=
  match hs with
  | [] => 0
  | h :: t => t.foldl (fun best x => if f best < f x then x else best) h

/-- `a < b` on keys where `none` stands for `float('inf')`. -/
def optLt (a b : Option ℚ) : Bool :=
  match a, b with
  | none, _ => false
  | some _, none => true
  | some x, some y => decide (x < y)

/-- Python `min(hs, key = f)` with `f` valued in `ℚ ∪ {inf}` (the source uses
`hourly_prod.get(h, float('inf'))`): the first element attaining the
minimum. -/
def argminFirst (hs : List ℕ) (f : ℕ → Option ℚ) : ℕ :=
  match hs with
  | [] => 0
  | h :: t => t.foldl (fun best x => if optLt (f x) (f best) then x else best) h

/-- `total_hourly_production[k] += v` (the key is always present, having been
initialised for every hour). -/
def dictAdd (m : List (ℕ × ℚ)) (k : ℕ) (v : ℚ) : List (ℕ × ℚ) :=
  m.map (fun p => if p.1 = k then (p.1, p.2 + v) else p)

/-- The body of the per-source loop of `analyze_hourly_metrics`, folded over
`ENERGY_SOURCES.keys()`.  State: (blocks so far, `total_hourly_production`,
`valid_sources`).  In the ℚ model every stored value is numeric, so the
`isinstance` filters keep all values and `valid_prods` etc. are exactly the
dicts' value lists (the `if valid_prods and ...` test is then true whenever
the three maps are non-empty). -/
def analyzeStep (cache : CacheMap) (hours : List ℕ)
    (acc : List SourceBlock × List (ℕ × ℚ) × ℕ) (source : String) :
    List SourceBlock × List (ℕ × ℚ) × ℕ :=
  match dictGet? cache source with
  | none => acc
  | some e =>
    let d := e.2
    if d.hourly_production.isEmpty ∨ d.hourly_efficiency.isEmpty ∨
       d.hourly_cost.isEmpty then acc
    else
      let (blocks, total, validCount) := acc
      let prods := d.hourly_production.map Prod.snd
      let effs := d.hourly_efficiency.map Prod.snd
      let costs := d.hourly_cost.map Prod.snd
      let block : SourceBlock :=
        { name := source
          avg_prod := prods.sum / (prods.length : ℚ)
          avg_eff := effs.sum / (effs.length : ℚ)
          avg_cost := costs.sum / (costs.length : ℚ)
          peak_hour := argmaxFirst hours
            (fun h => (dictGet? d.hourly_production h).getD 0)
          low_hour := argminFirst hours
            (fun h => dictGet? d.hourly_production h) }
      let total2 := hours.foldl
        (fun m h => dictAdd m h ((dictGet? d.hourly_production h).getD 0))
        total
      (blocks ++ [block], total2, validCount + 1)

/-- `EnergyDataFetcher.analyze_hourly_metrics()`, returning the report shape
(`current_hour` is `datetime.now().hour`).  The body raises nothing in the ℚ
model, so the outer `try` is the identity. -/
def analyze_hourly_metrics (cache : CacheMap) (current_hour : ℕ) :
    AnalyzeReport :=
  let hours := (hoursList current_hour).reverse
  if ¬ sourceNames.any (fun s => (dictGet? cache s).isSome) then .noData
  else
    let total0 := hours.foldl (fun m h => dictSet m h (0 : ℚ)) []
    let res := sourceNames.foldl (analyzeStep cache hours) ([], total0, 0)
    let blocks := res.1
    let total := res.2.1
    let validCount := res.2.2
    if validCount = 0 then .noValidData
    else
      let valid_totals := (total.map Prod.snd).filter (fun v => decide (0 < v))
      if valid_totals.isEmpty then .report blocks none
      else
        let total_avg := valid_totals.sum / (valid_totals.length : ℚ)
        let peak := argmaxFirst hours (fun h => (dictGet? total h).getD 0)
        let low := argminFirst hours (fun h => dictGet? total h)
        let peakVal := (dictGet? total peak).getD 0
        .report blocks (some
          { total_avg := total_avg
            peak_hour := peak
            low_hour := low
            ratio := if total_avg > 0 then peakVal / total_avg else 0 })

/-! ### Dictionary and hour-list lemmas -/

theorem get_none_forall {κ α : Type} [DecidableEq κ] {m : List (κ × α)}
    {k : κ} (h : dictGet? m k = none) : ∀ p ∈ m, p.1 ≠ k := by
  intro p hp
  unfold dictGet? at h
  have hf : m.find? (fun p => decide (p.1 = k)) = none :=
    Option.map_eq_none'.mp h
  have := List.find?_eq_none.mp hf p hp
  simpa using this

theorem dictSet_of_get_none {κ α : Type} [DecidableEq κ] {m : List (κ × α)}
    {k : κ} (h : dictGet? m k = none) (v : α) :
    dictSet m k v = m ++ [(k, v)] := by
  have hall := get_none_forall h
  unfold dictSet
  have hany : m.any (fun p => decide (p.1 = k)) = false := by
    simp only [List.any_eq_false]
    intro p hp
    simpa using hall p hp
  simp [hany]

theorem dictGet?_append_single_self {κ α : Type} [DecidableEq κ]
    {m : List (κ × α)} {k : κ} (h : dictGet? m k = none) (v : α) :
    dictGet? (m ++ [(k, v)]) k = some v := by
  have hall := get_none_forall h
  induction m with
  | nil => simp [dictGet?]
  | cons p t ih =>
    have hp : p.1 ≠ k := hall p (by simp)
    have ht : dictGet? t k = none := by
      unfold dictGet?
      rw [List.find?_eq_none.mpr ?_]
      · rfl
      · intro q hq; simpa using hall q (by simp [hq])
    have := ih ht (fun q hq => hall q (by simp [hq]))
    unfold dictGet? at this ⊢
    simpa [List.find?, hp] using this

theorem dictGet?_append_single_ne {κ α : Type} [DecidableEq κ]
    {m : List (κ × α)} {k k2 : κ} (h : dictGet? m k2 = none) (hne : k ≠ k2)
    (v : α) : dictGet? (m ++ [(k, v)]) k2 = none := by
  induction m with
  | nil => simp [dictGet?, List.find?, hne]
  | cons p t ih =>
    have hp : p.1 ≠ k2 := get_none_forall h p (by simp)
    have ht : dictGet? t k2 = none := by
      unfold dictGet?
      rw [List.find?_eq_none.mpr ?_]
      · rfl
      · intro q hq; simpa using get_none_forall h q (by simp [hq])
    have := ih ht
    unfold dictGet? at this ⊢
    simpa [List.find?, hp] using this

theorem foldl_dictSet_fresh (g : ℕ → ℚ) :
    ∀ (hs : List ℕ) (acc : List (ℕ × ℚ)), hs.Nodup →
      (∀ h ∈ hs, dictGet? acc h = none) →
      hs.foldl (fun m h => dictSet m h (g h)) acc =
        acc ++ hs.map (fun h => (h, g h)) := by
  intro hs
  induction hs with
  | nil => intro acc _ _; simp
  | cons h t ih =>
    intro acc hnd hfresh
    rw [List.foldl_cons, dictSet_of_get_none (hfresh h (by simp)) _]
    rw [ih (acc ++ [(h, g h)]) hnd.of_cons ?_]
    · simp
    · intro h2 hh2
      have hne : h ≠ h2 := by
        intro hcontra
        exact (List.nodup_cons.mp hnd).1 (hcontra ▸ hh2)
      exact dictGet?_append_single_ne (hfresh h2 (by simp [hh2])) hne _

theorem buildHourlyDict_eq (hs : List ℕ) (g : ℕ → ℚ) (hnd : hs.Nodup) :
    buildHourlyDict hs g = hs.map (fun h => (h, g h)) := by
  have := foldl_dictSet_fresh g hs [] hnd (fun h _ => rfl)
  simpa [buildHourlyDict] using this

theorem dictGet?_keyedMap (g : ℕ → ℚ) (k : ℕ) :
    ∀ hs : List ℕ,
      dictGet? (hs.map (fun h => (h, g h))) k =
        if k ∈ hs then some (g k) else none := by
  intro hs
  induction hs with
  | nil => simp [dictGet?]
  | cons h t ih =>
    by_cases hk : h = k
    · subst hk
      unfold dictGet?
      rw [List.map_cons, List.find?_cons_of_pos _ (by simp)]
      simp
    · unfold dictGet? at ih ⊢
      rw [List.map_cons, List.find?_cons_of_neg _ (by simpa using hk), ih]
      simp [Ne.symm hk]

theorem hoursList_perm : ∀ cur : Fin 24,
    (hoursList cur).Perm (List.range 24) := by decide

theorem hoursList_nodup (cur : Fin 24) : (hoursList cur).Nodup :=
  ((hoursList_perm cur).nodup_iff).mpr (List.nodup_range 24)

theorem mem_hoursList (cur : Fin 24) {h : ℕ} (hh : h < 24) :
    h ∈ hoursList cur :=
  ((hoursList_perm cur).mem_iff).mpr (List.mem_range.mpr hh)

theorem hoursList_length (cur : ℕ) : (hoursList cur).length = 24 := rfl

/-- The arithmetic mean of a dict's values (the quantity the specification's
"scalar equals the mean of the 24 values" invariant refers to). -/
def dictMean (m : List (ℕ × ℚ)) : ℚ :=
  (m.map Prod.snd).sum / (m.length : ℚ)

theorem buildHourlyDict_length (cur : Fin 24) (g : ℕ → ℚ) :
    (buildHourlyDict (hoursList cur) g).length = 24 := by
  rw [buildHourlyDict_eq _ _ (hoursList_nodup cur), List.length_map,
    hoursList_length]

theorem sum_div_24_eq_dictMean {m : List (ℕ × ℚ)} (hlen : m.length = 24) :
    (m.map Prod.snd).sum / 24 = dictMean m := by
  rw [dictMean, hlen]
  norm_num

/-- C7: for every source and every `nowHour` in 0–23, the snapshot built by
the fallback synthesizer has each scalar `production` / `efficiency` / `cost`
field equal to the arithmetic mean of the corresponding hourly map's values,
and each hourly map has exactly 24 entries; the same holds for a snapshot
built from live data (any non-empty API array). -/
theorem C7_scalars_are_hourly_means :
    ∀ (source : String) (current_hour : Fin 24),
      ((get_fallback_hourly_data source current_hour).production =
          dictMean (get_fallback_hourly_data source current_hour).hourly_production ∧
        (get_fallback_hourly_data source current_hour).hourly_production.length = 24 ∧
        (get_fallback_hourly_data source current_hour).efficiency =
          dictMean (get_fallback_hourly_data source current_hour).hourly_efficiency ∧
        (get_fallback_hourly_data source current_hour).hourly_efficiency.length = 24 ∧
        (get_fallback_hourly_data source current_hour).cost =
          dictMean (get_fallback_hourly_data source current_hour).hourly_cost ∧
        (get_fallback_hourly_data source current_hour).hourly_cost.length = 24) ∧
      ∀ api_data : List ℚ, api_data ≠ [] →
        ((process_hourly_data source api_data current_hour).production =
            dictMean (process_hourly_data source api_data current_hour).hourly_production ∧
          (process_hourly_data source api_data current_hour).hourly_production.length = 24 ∧
          (process_hourly_data source api_data current_hour).efficiency =
            dictMean (process_hourly_data source api_data current_hour).hourly_efficiency ∧
          (process_hourly_data source api_data current_hour).hourly_efficiency.length = 24 ∧
          (process_hourly_data source api_data current_hour).cost =
            dictMean (process_hourly_data source api_data current_hour).hourly_cost ∧
          (process_hourly_data source api_data current_hour).hourly_cost.length = 24) := by
  intro source cur
  constructor
  · simp only [get_fallback_hourly_data]
    refine ⟨?_, buildHourlyDict_length cur _, ?_, buildHourlyDict_length cur _,
      ?_, buildHourlyDict_length cur _⟩ <;>
      exact (sum_div_24_eq_dictMean (buildHourlyDict_length cur _)).symm ▸ rfl
  · intro api hne
    have hne' : api.isEmpty = false := by simpa using hne
    simp only [process_hourly_data, hne', Bool.false_eq_true, if_false,
      hoursList_length]
    refine ⟨?_, buildHourlyDict_length cur _, ?_, buildHourlyDict_length cur _,
      ?_, buildHourlyDict_length cur _⟩ <;>
      · rw [dictMean, buildHourlyDict_length cur _]

/-- C8: for every hour 0–23, the efficiency function gives Solar
`0.8 * (1 - |h - 12| / 12)` inside `[6, 18]` and `0.1` outside, Wind
`0.7 + (h mod 4) * 0.1`, and the constant `0.85` for every other source. -/
theorem C8_efficiency_formulas :
    ∀ h : Fin 24,
      (6 ≤ (h : ℕ) ∧ (h : ℕ) ≤ 18 →
        calculate_efficiency "Solar" h = 0.8 * (1 - |((h : ℕ) : ℚ) - 12| / 12)) ∧
      (¬ (6 ≤ (h : ℕ) ∧ (h : ℕ) ≤ 18) →
        calculate_efficiency "Solar" h = 0.1) ∧
      calculate_efficiency "Wind" h = 0.7 + (((h : ℕ) % 4 : ℕ) : ℚ) * 0.1 ∧
      (∀ s : String, s ≠ "Solar" → s ≠ "Wind" →
        calculate_efficiency s h = 0.85) := by
  intro h
  refine ⟨?_, ?_, ?_, ?_⟩
  · intro hin
    simp only [calculate_efficiency, if_pos rfl, if_pos hin]
    push_cast
    norm_num
  · intro hout
    simp only [calculate_efficiency, if_pos rfl, if_neg hout]
    norm_num
  · have hws : ("Wind" : String) ≠ "Solar" := by decide
    simp only [calculate_efficiency, if_neg hws, if_pos rfl]
    norm_num
  · intro s hs hw
    simp only [calculate_efficiency, if_neg hs, if_neg hw]
    norm_num

/-- C8 witness at concrete inputs (hour 7 inside the solar window, hour 3
outside, and the default source "Coal"). -/
theorem C8_efficiency_formulas_witness :
    calculate_efficiency "Solar" ((7 : Fin 24) : ℕ) =
      0.8 * (1 - |(((7 : Fin 24) : ℕ) : ℚ) - 12| / 12) ∧
    calculate_efficiency "Solar" ((3 : Fin 24) : ℕ) = 0.1 ∧
    calculate_efficiency "Coal" ((7 : Fin 24) : ℕ) = 0.85 :=
  ⟨(C8_efficiency_formulas 7).1 (by decide),
   (C8_efficiency_formulas 3).2.1 (by decide),
   (C8_efficiency_formulas 7).2.2.2 "Coal" (by decide) (by decide)⟩

/-- C7 witness at concrete inputs (source "Solar", hour 12, live array
`[3]`): scalar production equals the mean of the hourly production map. -/
theorem C7_scalars_are_hourly_means_witness :
    (get_fallback_hourly_data "Solar" ((12 : Fin 24) : ℕ)).production =
      dictMean (get_fallback_hourly_data "Solar" ((12 : Fin 24) : ℕ)).hourly_production ∧
    (process_hourly_data "Solar" [3] ((12 : Fin 24) : ℕ)).production =
      dictMean (process_hourly_data "Solar" [3] ((12 : Fin 24) : ℕ)).hourly_production :=
  ⟨(C7_scalars_are_hourly_means "Solar" 12).1.1,
   ((C7_scalars_are_hourly_means "Solar" 12).2 [3] (by decide)).1⟩

/-- Modelled from the spec's words, for comparison against the source (claim
C2): "the production value of the API data point at that hour's recency
index (0 for the most recent hour, 1 for the previous hour, ...), clamping
to the last available point whenever the recency index is at least the array
length". -/
def spec_recency_value (api_data : List ℚ) (recency : ℕ) : ℚ :=
  if recency < api_data.length then api_data.getD recency 0
  else api_data.getLast?.getD 0

/-- C2 counterexample: with `current_hour = 1` and the two-point array
`[10, 20]`, the most recent hour is hour 1, whose recency index is 0; the
claim predicts its production is `spec_recency_value [10, 20] 0 = 10`, but
the snapshot stores `api_data[1] = 20` — the code indexes the array by the
hour-of-day label, not by the recency index. -/
theorem C2_counterexample :
    dictGet? ((process_hourly_data "Coal" [10, 20] 1).hourly_production) 1 =
      some 20 ∧
    spec_recency_value [10, 20] 0 = 10 ∧
    (20 : ℚ) ≠ 10 := by decide

/-- C2 amended: the snapshot assigns, to each hour-of-day label `h` among
the last 24 hours, the production value of the API data point at index `h`
(the hour-of-day label itself, not the recency index), clamping to the last
available point whenever the label is at least the array length. -/
theorem C2_amended_indexed_by_hour_label :
    ∀ (source : String) (api_data : List ℚ), api_data ≠ [] →
      ∀ (current_hour : Fin 24) (h : Fin 24),
        dictGet?
            ((process_hourly_data source api_data current_hour).hourly_production)
            h =
          some (if (h : ℕ) < api_data.length then api_data.getD h 0
                else api_data.getLast?.getD 0) := by
  intro source api hne cur h
  have hne' : api.isEmpty = false := by simpa using hne
  simp only [process_hourly_data, hne', Bool.false_eq_true, if_false]
  rw [buildHourlyDict_eq _ _ (hoursList_nodup cur), dictGet?_keyedMap]
  rw [if_pos (mem_hoursList cur h.isLt)]
  rfl

/-- C2 amended witness: at source "Coal", array `[10, 20]`, current hour 1,
hour label 1 (which is below the array length 2). -/
theorem C2_amended_indexed_by_hour_label_witness :
    dictGet?
        ((process_hourly_data "Coal" [10, 20] ((1 : Fin 24) : ℕ)).hourly_production)
        ((1 : Fin 24) : ℕ) =
      some (if ((1 : Fin 24) : ℕ) < ([10, 20] : List ℚ).length
            then ([10, 20] : List ℚ).getD ((1 : Fin 24) : ℕ) 0
            else ([10, 20] : List ℚ).getLast?.getD 0) :=
  C2_amended_indexed_by_hour_label "Coal" [10, 20] (by decide) 1 1

theorem fetchAux_isOk (source : String) (oracle : ℕ → NetOutcome) (now : ℚ)
    (current_hour max_retries : ℕ) :
    ∀ (remaining attempt calls : ℕ) (sleeps : List ℕ) (cache : CacheMap),
      ∃ r, fetchAux source oracle now current_hour max_retries remaining
        attempt calls sleeps cache = .ok r := by
  intro remaining
  induction remaining with
  | zero => intro attempt calls sleeps cache; exact ⟨_, rfl⟩
  | succ n ih =>
    intro attempt calls sleeps cache
    rcases htb : fetchTryBody source oracle now current_hour max_retries
        attempt calls cache with e | t
    · rcases e with _ | _ | _ | _ | _
      · by_cases hatt : attempt < max_retries - 1
        · simp only [fetchAux, htb, if_pos hatt]
          exact ih _ _ _ _
        · simp only [fetchAux, htb, if_neg hatt]
          exact ⟨_, rfl⟩
      · by_cases hatt : attempt < max_retries - 1
        · simp only [fetchAux, htb, if_pos hatt]
          exact ih _ _ _ _
        · simp only [fetchAux, htb, if_neg hatt]
          exact ⟨_, rfl⟩
      · simp only [fetchAux, htb]
        exact ⟨_, rfl⟩
      · simp only [fetchAux, htb]
        exact ⟨_, rfl⟩
      · simp only [fetchAux, htb]
        exact ⟨_, rfl⟩
    · rcases t with ⟨d, c2⟩ | _
      · simp only [fetchAux, htb]
        exact ⟨_, rfl⟩
      · simp only [fetchAux, htb]
        exact ih _ _ _ _

/-- C1: for every source string and every sequence of network outcomes
(timeouts, connection errors, any HTTP status, malformed or empty bodies),
`fetch_realtime_data` returns a snapshot — the `Except` encoding of the
`try`/`except` structure never yields an error — and construction raises
exactly when the required `ENERGY_API_KEY` configuration is absent (unset or
empty). -/
theorem C1_fetch_never_raises_construction_key_check :
    (∀ (source : String) (oracle : ℕ → NetOutcome) (now : ℚ)
       (current_hour : ℕ) (cache : CacheMap) (max_retries : ℕ),
       ∃ r : FetchResult,
         fetch_realtime_data source oracle now current_hour cache max_retries =
           .ok r) ∧
    (∀ env_api_key : Option String,
       (∃ st, EnergyDataFetcher_init env_api_key = .ok st) ↔
         ¬ (env_api_key = none ∨ env_api_key = some "")) := by
  constructor
  · intro source oracle now current_hour cache max_retries
    exact fetchAux_isOk source oracle now current_hour max_retries
      max_retries 0 0 [] cache
  · intro k
    rcases k with _ | s
    · simp [EnergyDataFetcher_init]
    · by_cases hs : s = ""
      · subst hs
        simp [EnergyDataFetcher_init]
      · simp [EnergyDataFetcher_init, hs]

/-- C1 witness: a concrete call in which every attempt raises an arbitrary
exception still returns a snapshot, and construction succeeds on a concrete
non-empty key. -/
theorem C1_fetch_never_raises_construction_key_check_witness :
    (∃ r : FetchResult,
       fetch_realtime_data "Coal" (fun _ => NetOutcome.otherExc) 0 5 [] 3 =
         .ok r) ∧
    (∃ st, EnergyDataFetcher_init (some "key") = .ok st) :=
  ⟨(C1_fetch_never_raises_construction_key_check.1 "Coal"
      (fun _ => NetOutcome.otherExc) 0 5 [] 3),
   (C1_fetch_never_raises_construction_key_check.2 (some "key")).mpr
     (by simp)⟩

/-- C4: whenever the analysis text's fingerprint is not a fresh cache entry,
`get_llm_recommendations` returns the fixed static fallback recommendation
text and issues no network request — evaluating the never-initialized
`deepseek_headers` attribute raises before the POST, and the catch-all
handler returns the fallback — and every state built by the constructor has
that attribute absent, so the 200/401/429/other-status handlers are
unreachable from a constructed state. -/
theorem C4_missing_headers_static_fallback :
    (∀ (key : ℤ) (oracle : ℕ → LlmOutcome) (now : ℚ) (c : LlmCache),
       llmCacheFresh c key now = none →
       get_llm_recommendations none key oracle now c =
         ⟨get_fallback_recommendations, c, 0, []⟩) ∧
    (∀ (env_api_key : Option String) (st : FetcherState),
       EnergyDataFetcher_init env_api_key = .ok st →
       st.deepseek_headers = none) := by
  constructor
  · intro key oracle now c hmiss
    simp [get_llm_recommendations, llmAux, hmiss]
  · intro k st hok
    rcases k with _ | s
    · simp [EnergyDataFetcher_init] at hok
    · by_cases hs : s = ""
      · subst hs
        simp [EnergyDataFetcher_init] at hok
      · simp [EnergyDataFetcher_init, hs] at hok
        rw [← hok]

/-- C4 witness: a concrete call with an empty cache and absent headers
attribute returns the static fallback with zero requests, and a concrete
constructed state has no `deepseek_headers`. -/
theorem C4_missing_headers_static_fallback_witness :
    get_llm_recommendations none 7 (fun _ => LlmOutcome.otherExc) 0 [] =
      ⟨get_fallback_recommendations, [], 0, []⟩ ∧
    FetcherState.deepseek_headers
        ⟨"key", none, [], []⟩ = none :=
  ⟨C4_missing_headers_static_fallback.1 7 (fun _ => LlmOutcome.otherExc) 0 []
     rfl,
   C4_missing_headers_static_fallback.2 (some "key") ⟨"key", none, [], []⟩
     (by simp [EnergyDataFetcher_init])⟩

/-- C6: when the recommendation request receives a 401 response,
`get_llm_recommendations` returns the fixed authentication-failure message
after exactly one request, with no sleep and no retry, regardless of the
remaining attempt budget (the loop allows 3 attempts). -/
theorem C6_auth_failure_single_attempt :
    ∀ (hdrs : List (String × String)) (key : ℤ) (oracle : ℕ → LlmOutcome)
      (now : ℚ) (c : LlmCache) (rsp : LlmResponse),
      llmCacheFresh c key now = none →
      oracle 0 = .resp rsp → rsp.status = 401 →
      get_llm_recommendations (some hdrs) key oracle now c =
        ⟨"API Authentication failed. Please check your API key configuration.",
         c, 1, []⟩ := by
  intro hdrs key oracle now c rsp hmiss horacle hstatus
  have h200 : rsp.status ≠ 200 := by rw [hstatus]; decide
  simp [get_llm_recommendations, llmAux, hmiss, horacle, h200, hstatus]

/-- C6 witness: a concrete 401 response with empty cache. -/
theorem C6_auth_failure_single_attempt_witness :
    get_llm_recommendations (some []) 7
        (fun _ => LlmOutcome.resp ⟨401, none, none, none⟩) 0 [] =
      ⟨"API Authentication failed. Please check your API key configuration.",
       [], 1, []⟩ :=
  C6_auth_failure_single_attempt [] 7
    (fun _ => LlmOutcome.resp ⟨401, none, none, none⟩) 0 []
    ⟨401, none, none, none⟩ rfl rfl rfl

/-- A network outcome on which `fetch_realtime_data` can take its success
path: a 200 response whose parsed data array is non-empty. -/
def isSuccessOutcome : NetOutcome → Bool
  | .status 200 (some (_ :: _)) => true
  | _ => false

theorem fetchAux_no_success (source : String) (oracle : ℕ → NetOutcome)
    (now : ℚ) (current_hour max_retries : ℕ)
    (hns : ∀ i, isSuccessOutcome (oracle i) = false)
    (cache : CacheMap) (hcv : is_cache_valid cache source now = false) :
    ∀ (remaining attempt calls : ℕ) (sleeps : List ℕ) (r : FetchResult),
      fetchAux source oracle now current_hour max_retries remaining attempt
          calls sleeps cache = .ok r →
      r.data = get_fallback_hourly_data source current_hour ∧
      r.cache = cache ∧ calls ≤ r.netCalls ∧
      (1 ≤ remaining → calls + 1 ≤ r.netCalls) := by
  intro remaining
  induction remaining with
  | zero =>
    intro attempt calls sleeps r hr
    simp only [fetchAux] at hr
    cases hr
    refine ⟨rfl, rfl, le_refl _, ?_⟩
    intro h10
    exact absurd h10 (by omega)
  | succ n ih =>
    intro attempt calls sleeps r hr
    cases horacle : oracle calls with
    | timeout =>
      have htb : fetchTryBody source oracle now current_hour max_retries
          attempt calls cache = .error .timeoutErr := by
        simp [fetchTryBody, hcv, horacle]
      simp only [fetchAux, hcv, Bool.false_eq_true, if_false, htb] at hr
      by_cases hatt : attempt < max_retries - 1
      · rw [if_pos hatt] at hr
        obtain ⟨h1, h2, h3, _⟩ := ih (attempt + 1) (calls + 1)
          (sleeps ++ [2 ^ attempt]) r hr
        exact ⟨h1, h2, by omega, fun _ => h3⟩
      · rw [if_neg hatt] at hr
        cases hr
        exact ⟨rfl, rfl, Nat.le_succ _, fun _ => Nat.le_refl _⟩
    | connError =>
      have htb : fetchTryBody source oracle now current_hour max_retries
          attempt calls cache = .error .connErr := by
        simp [fetchTryBody, hcv, horacle]
      simp only [fetchAux, hcv, Bool.false_eq_true, if_false, htb] at hr
      by_cases hatt : attempt < max_retries - 1
      · rw [if_pos hatt] at hr
        obtain ⟨h1, h2, h3, _⟩ := ih (attempt + 1) (calls + 1)
          (sleeps ++ [2 ^ attempt]) r hr
        exact ⟨h1, h2, by omega, fun _ => h3⟩
      · rw [if_neg hatt] at hr
        cases hr
        exact ⟨rfl, rfl, Nat.le_succ _, fun _ => Nat.le_refl _⟩
    | otherExc =>
      have htb : fetchTryBody source oracle now current_hour max_retries
          attempt calls cache = .error .otherErr := by
        simp [fetchTryBody, hcv, horacle]
      simp only [fetchAux, hcv, Bool.false_eq_true, if_false, htb] at hr
      cases hr
      exact ⟨rfl, rfl, Nat.le_succ _, fun _ => Nat.le_refl _⟩
    | status code body =>
      have hsf := hns calls
      rw [horacle] at hsf
      by_cases h200 : code = 200
      · subst h200
        rcases body with _ | (_ | ⟨p, ps⟩)
        · have htb : fetchTryBody source oracle now current_hour max_retries
              attempt calls cache = .error .jsonErr := by
            simp [fetchTryBody, hcv, horacle]
          simp only [fetchAux, hcv, Bool.false_eq_true, if_false, htb] at hr
          cases hr
          exact ⟨rfl, rfl, Nat.le_succ _, fun _ => Nat.le_refl _⟩
        · have htb : fetchTryBody source oracle now current_hour max_retries
              attempt calls cache = .error .valueErr := by
            simp [fetchTryBody, hcv, horacle]
          simp only [fetchAux, hcv, Bool.false_eq_true, if_false, htb] at hr
          cases hr
          exact ⟨rfl, rfl, Nat.le_succ _, fun _ => Nat.le_refl _⟩
        · exact absurd hsf (by simp [isSuccessOutcome])
      · by_cases h500 : code = 500 ∧ attempt < max_retries - 1
        · have htb : fetchTryBody source oracle now current_hour max_retries
              attempt calls cache = .ok .retryServer := by
            simp [fetchTryBody, hcv, horacle, h200, h500]
          simp only [fetchAux, hcv, Bool.false_eq_true, if_false, htb] at hr
          obtain ⟨h1, h2, h3, _⟩ := ih (attempt + 1) (calls + 1)
            (sleeps ++ [2 ^ attempt]) r hr
          exact ⟨h1, h2, by omega, fun _ => h3⟩
        · have htb : fetchTryBody source oracle now current_hour max_retries
              attempt calls cache =
              .ok (.ret (get_fallback_hourly_data source current_hour)
                cache) := by
            simp [fetchTryBody, hcv, horacle, h200, h500]
          simp only [fetchAux, hcv, Bool.false_eq_true, if_false, htb] at hr
          cases hr
          exact ⟨rfl, rfl, Nat.le_succ _, fun _ => Nat.le_refl _⟩

/-- C3 counterexample: with an empty cache and every attempt raising a
generic exception, `fetch_realtime_data` takes the fallback outcome, but the
returned cache is still empty — the fallback snapshot is not written into
the cache under the source key — and a second call shortly after (well
within the 300-unit TTL) issues another network request instead of returning
a cached fallback. -/
theorem C3_counterexample :
    fetch_realtime_data "Coal" (fun _ => NetOutcome.otherExc) 0 5 [] 3 =
      .ok ⟨get_fallback_hourly_data "Coal" 5, [], 1, []⟩ ∧
    fetch_realtime_data "Coal" (fun _ => NetOutcome.otherExc) 100 5 [] 3 =
      .ok ⟨get_fallback_hourly_data "Coal" 5, [], 1, []⟩ := ⟨rfl, rfl⟩

/-- C3 amended: whenever `fetch_realtime_data` takes the fallback outcome
(no attempt sees a 200 response with non-empty data, and the cache holds no
fresh entry), the synthesized fallback snapshot is returned but the cache is
left unchanged — nothing is written under the source key — so a subsequent
fetch for the same source cannot be served from the cache and issues at
least one further network request. -/
theorem C3_amended_fallback_not_cached :
    ∀ (source : String) (oracle : ℕ → NetOutcome) (now : ℚ)
      (current_hour : ℕ) (cache : CacheMap) (max_retries : ℕ),
      (∀ i, isSuccessOutcome (oracle i) = false) →
      is_cache_valid cache source now = false →
      ∀ r : FetchResult,
        fetch_realtime_data source oracle now current_hour cache max_retries =
          .ok r →
        r.data = get_fallback_hourly_data source current_hour ∧
        r.cache = cache ∧
        (1 ≤ max_retries → 1 ≤ r.netCalls) := by
  intro source oracle now current_hour cache max_retries hns hcv r hr
  obtain ⟨h1, h2, _, h4⟩ := fetchAux_no_success source oracle now current_hour
    max_retries hns cache hcv max_retries 0 0 [] r hr
  exact ⟨h1, h2, fun hmr => h4 hmr⟩

/-- C3 amended witness: the concrete always-failing call from the
counterexample satisfies the amended claim's conclusion. -/
theorem C3_amended_fallback_not_cached_witness :
    FetchResult.data ⟨get_fallback_hourly_data "Coal" 5, [], 1, []⟩ =
        get_fallback_hourly_data "Coal" 5 ∧
    FetchResult.cache ⟨get_fallback_hourly_data "Coal" 5, [], 1, []⟩ = [] ∧
    (1 ≤ 3 →
      1 ≤ FetchResult.netCalls ⟨get_fallback_hourly_data "Coal" 5, [], 1, []⟩) :=
  C3_amended_fallback_not_cached "Coal" (fun _ => NetOutcome.otherExc) 0 5 []
    3 (fun _ => rfl) (by decide) _ rfl

theorem fetch_realtime_data_def (source : String) (oracle : ℕ → NetOutcome)
    (now : ℚ) (cur : ℕ) (cache : CacheMap) (maxR : ℕ) :
    fetch_realtime_data source oracle now cur cache maxR =
      fetchAux source oracle now cur maxR maxR 0 0 [] cache := rfl

theorem fetchAux_step_ret (source : String) (oracle : ℕ → NetOutcome)
    (now : ℚ) (cur maxR n attempt calls : ℕ) (sleeps : List ℕ)
    (cache : CacheMap) (d : HourlyData) (c2 : CacheMap)
    (hcv : is_cache_valid cache source now = false)
    (htb : fetchTryBody source oracle now cur maxR attempt calls cache =
      .ok (.ret d c2)) :
    fetchAux source oracle now cur maxR (n + 1) attempt calls sleeps cache =
      .ok ⟨d, c2, calls + 1, sleeps⟩ := by
  simp only [fetchAux, htb, hcv, Bool.false_eq_true, if_false]

theorem fetchAux_step_ret_hit (source : String) (oracle : ℕ → NetOutcome)
    (now : ℚ) (cur maxR n attempt calls : ℕ) (sleeps : List ℕ)
    (cache : CacheMap) (d : HourlyData) (c2 : CacheMap)
    (hcv : is_cache_valid cache source now = true)
    (htb : fetchTryBody source oracle now cur maxR attempt calls cache =
      .ok (.ret d c2)) :
    fetchAux source oracle now cur maxR (n + 1) attempt calls sleeps cache =
      .ok ⟨d, c2, calls, sleeps⟩ := by
  simp only [fetchAux, htb, hcv, if_true]

theorem fetchAux_step_retry (source : String) (oracle : ℕ → NetOutcome)
    (now : ℚ) (cur maxR n attempt calls : ℕ) (sleeps : List ℕ)
    (cache : CacheMap)
    (hcv : is_cache_valid cache source now = false)
    (htb : fetchTryBody source oracle now cur maxR attempt calls cache =
      .ok .retryServer) :
    fetchAux source oracle now cur maxR (n + 1) attempt calls sleeps cache =
      fetchAux source oracle now cur maxR n (attempt + 1) (calls + 1)
        (sleeps ++ [2 ^ attempt]) cache := by
  simp only [fetchAux, htb, hcv, Bool.false_eq_true, if_false]

/-- C5 counterexample: a 502 response on the first attempt, with two
attempts remaining and a successful response available next, is not
retried — `fetch_realtime_data` returns the fallback snapshot after exactly
one request with no backoff sleep (the retry branch tests `== 500` only, so
502/503/504 are not retryable).  The last three conjuncts show the returned
snapshot is the synthesized fallback, not the available 200 body. -/
theorem C5_counterexample :
    fetch_realtime_data "Coal"
        (fun n => if n = 0 then NetOutcome.status 502 none
                  else NetOutcome.status 200 (some [7])) 0 5 [] 3 =
      .ok ⟨get_fallback_hourly_data "Coal" 5, [], 1, []⟩ ∧
    dictGet? ((get_fallback_hourly_data "Coal" 5).hourly_production) 5 =
      some 425 ∧
    dictGet? ((process_hourly_data "Coal" [7] 5).hourly_production) 5 =
      some 7 ∧
    (425 : ℚ) ≠ 7 := by
  refine ⟨rfl, ?_, by decide, by decide⟩
  show dictGet? (buildHourlyDict (hoursList 5)
    (fun h => sourceBaseProd "Coal" * calculate_efficiency "Coal" h)) 5 =
      some 425
  rw [buildHourlyDict_eq _ _ (by decide), dictGet?_keyedMap,
    if_pos (by decide : (5 : ℕ) ∈ hoursList 5)]
  have hbp : sourceBaseProd "Coal" = 500 := rfl
  have heff : calculate_efficiency "Coal" 5 = 85 / 100 := rfl
  show some (sourceBaseProd "Coal" * calculate_efficiency "Coal" 5) = some 425
  rw [hbp, heff]
  norm_num

/-- C5 amended: in `fetch_realtime_data` only the exact status 500 is
retryable — on a 500 with attempts remaining the client sleeps `2^attempt`
time units and retries — while every other non-200 status (502, 503, 504,
any 4xx, ...) proceeds to the fallback snapshot immediately, without
consuming further attempts. -/
theorem C5_amended_only_500_is_retryable :
    ∀ (source : String) (oracle : ℕ → NetOutcome) (now : ℚ)
      (current_hour : ℕ) (cache : CacheMap) (code : ℕ)
      (body : Option (List ℚ)),
      is_cache_valid cache source now = false →
      oracle 0 = .status code body → code ≠ 200 →
      ((code ≠ 500 →
         fetch_realtime_data source oracle now current_hour cache 3 =
           .ok ⟨get_fallback_hourly_data source current_hour, cache, 1, []⟩) ∧
       (code = 500 → ∀ (p : ℚ) (ps : List ℚ),
         oracle 1 = .status 200 (some (p :: ps)) →
         fetch_realtime_data source oracle now current_hour cache 3 =
           .ok ⟨process_hourly_data source (p :: ps) current_hour,
                update_cache cache source now
                  (process_hourly_data source (p :: ps) current_hour),
                2, [1]⟩)) := by
  intro source oracle now cur cache code body hcv horacle h200
  constructor
  · intro h500
    have htb : fetchTryBody source oracle now cur 3 0 0 cache =
        .ok (.ret (get_fallback_hourly_data source cur) cache) := by
      simp [fetchTryBody, hcv, horacle, h200, h500]
    rw [fetch_realtime_data_def, fetchAux_step_ret _ _ _ _ _ _ _ _ _ _ _ _
      hcv htb]
  · intro h500 p ps horacle1
    subst h500
    have htb : fetchTryBody source oracle now cur 3 0 0 cache =
        .ok .retryServer := by
      simp [fetchTryBody, hcv, horacle, h200]
    have htb1 : fetchTryBody source oracle now cur 3 1 1 cache =
        .ok (.ret (process_hourly_data source (p :: ps) cur)
          (update_cache cache source now
            (process_hourly_data source (p :: ps) cur))) := by
      simp [fetchTryBody, hcv, horacle1]
    rw [fetch_realtime_data_def,
      fetchAux_step_retry _ _ _ _ _ _ _ _ _ _ hcv htb,
      fetchAux_step_ret _ _ _ _ _ _ _ _ _ _ _ _ hcv htb1]
    norm_num

/-- C5 amended witness: a concrete 502 goes straight to the fallback after
one request (the non-retryable branch of the amended claim). -/
theorem C5_amended_only_500_is_retryable_witness :
    fetch_realtime_data "Coal"
        (fun n => if n = 0 then NetOutcome.status 502 none
                  else NetOutcome.otherExc) 0 5 [] 3 =
      .ok ⟨get_fallback_hourly_data "Coal" 5, [], 1, []⟩ :=
  (C5_amended_only_500_is_retryable "Coal"
      (fun n => if n = 0 then NetOutcome.status 502 none
                else NetOutcome.otherExc) 0 5 [] 502 none
      (by decide) rfl (by decide)).1 (by decide)

theorem fetchAux_step_otherErr (source : String) (oracle : ℕ → NetOutcome)
    (now : ℚ) (cur maxR n attempt calls : ℕ) (sleeps : List ℕ)
    (cache : CacheMap)
    (hcv : is_cache_valid cache source now = false)
    (htb : fetchTryBody source oracle now cur maxR attempt calls cache =
      .error .otherErr) :
    fetchAux source oracle now cur maxR (n + 1) attempt calls sleeps cache =
      .ok ⟨get_fallback_hourly_data source cur, cache, calls + 1, sleeps⟩ := by
  simp only [fetchAux, htb, hcv, Bool.false_eq_true, if_false]

/-- C9: with an empty (or source-free) cache, a successful fetch issues
exactly one request and stores the snapshot; a second fetch within the
300-unit TTL issues zero requests and returns the stored snapshot with the
cache unchanged; a fetch past the TTL treats the entry as stale and issues a
request again (so the two calls issue two requests in total), and the stale
entry is merely ignored, not purged — a stale-hit call that fails leaves the
old entry in storage untouched. -/
theorem C9_ttl_cache_round_trips :
    ∀ (source : String) (oracle1 oracle2 oracle3 oracle4 : ℕ → NetOutcome)
      (now1 now2 now3 : ℚ) (h1 h2 h3 : ℕ) (cache0 : CacheMap)
      (p : ℚ) (ps : List ℚ) (q : ℚ) (qs : List ℚ),
      dictGet? cache0 source = none →
      oracle1 0 = .status 200 (some (p :: ps)) →
      oracle3 0 = .status 200 (some (q :: qs)) →
      oracle4 0 = .otherExc →
      now2 - now1 < 300 →
      ¬ (now3 - now1 < 300) →
      (fetch_realtime_data source oracle1 now1 h1 cache0 3 =
         .ok ⟨process_hourly_data source (p :: ps) h1,
              update_cache cache0 source now1
                (process_hourly_data source (p :: ps) h1), 1, []⟩) ∧
      (fetch_realtime_data source oracle2 now2 h2
          (update_cache cache0 source now1
            (process_hourly_data source (p :: ps) h1)) 3 =
         .ok ⟨process_hourly_data source (p :: ps) h1,
              update_cache cache0 source now1
                (process_hourly_data source (p :: ps) h1), 0, []⟩) ∧
      (fetch_realtime_data source oracle3 now3 h3
          (update_cache cache0 source now1
            (process_hourly_data source (p :: ps) h1)) 3 =
         .ok ⟨process_hourly_data source (q :: qs) h3,
              update_cache
                (update_cache cache0 source now1
                  (process_hourly_data source (p :: ps) h1))
                source now3 (process_hourly_data source (q :: qs) h3),
              1, []⟩) ∧
      (fetch_realtime_data source oracle4 now3 h3
          (update_cache cache0 source now1
            (process_hourly_data source (p :: ps) h1)) 3 =
         .ok ⟨get_fallback_hourly_data source h3,
              update_cache cache0 source now1
                (process_hourly_data source (p :: ps) h1), 1, []⟩) ∧
      dictGet?
          (update_cache cache0 source now1
            (process_hourly_data source (p :: ps) h1)) source =
        some (now1, process_hourly_data source (p :: ps) h1) := by
  intro source oracle1 oracle2 oracle3 oracle4 now1 now2 now3 h1 h2 h3 cache0
    p ps q qs h0 ho1 ho3 ho4 hfresh hstale
  have hcv1 : is_cache_valid cache0 source now1 = false := by
    simp [is_cache_valid, h0]
  have hget : dictGet?
      (update_cache cache0 source now1
        (process_hourly_data source (p :: ps) h1)) source =
      some (now1, process_hourly_data source (p :: ps) h1) := by
    rw [update_cache, dictSet_of_get_none h0]
    exact dictGet?_append_single_self h0 _
  have hcv2 : is_cache_valid
      (update_cache cache0 source now1
        (process_hourly_data source (p :: ps) h1)) source now2 = true := by
    simp only [is_cache_valid, hget, cache_duration]
    exact decide_eq_true hfresh
  have hcv3 : is_cache_valid
      (update_cache cache0 source now1
        (process_hourly_data source (p :: ps) h1)) source now3 = false := by
    simp only [is_cache_valid, hget, cache_duration]
    exact decide_eq_false hstale
  refine ⟨?_, ?_, ?_, ?_, hget⟩
  · have htb : fetchTryBody source oracle1 now1 h1 3 0 0 cache0 =
        .ok (.ret (process_hourly_data source (p :: ps) h1)
          (update_cache cache0 source now1
            (process_hourly_data source (p :: ps) h1))) := by
      simp [fetchTryBody, hcv1, ho1]
    rw [fetch_realtime_data_def,
      fetchAux_step_ret _ _ _ _ _ _ _ _ _ _ _ _ hcv1 htb]
  · have htb : fetchTryBody source oracle2 now2 h2 3 0 0
        (update_cache cache0 source now1
          (process_hourly_data source (p :: ps) h1)) =
        .ok (.ret (process_hourly_data source (p :: ps) h1)
          (update_cache cache0 source now1
            (process_hourly_data source (p :: ps) h1))) := by
      simp [fetchTryBody, hcv2, hget]
    rw [fetch_realtime_data_def,
      fetchAux_step_ret_hit _ _ _ _ _ _ _ _ _ _ _ _ hcv2 htb]
  · have htb : fetchTryBody source oracle3 now3 h3 3 0 0
        (update_cache cache0 source now1
          (process_hourly_data source (p :: ps) h1)) =
        .ok (.ret (process_hourly_data source (q :: qs) h3)
          (update_cache
            (update_cache cache0 source now1
              (process_hourly_data source (p :: ps) h1))
            source now3 (process_hourly_data source (q :: qs) h3))) := by
      simp [fetchTryBody, hcv3, ho3]
    rw [fetch_realtime_data_def,
      fetchAux_step_ret _ _ _ _ _ _ _ _ _ _ _ _ hcv3 htb]
  · have htb : fetchTryBody source oracle4 now3 h3 3 0 0
        (update_cache cache0 source now1
          (process_hourly_data source (p :: ps) h1)) =
        .error .otherErr := by
      simp [fetchTryBody, hcv3, ho4]
    rw [fetch_realtime_data_def,
      fetchAux_step_otherErr _ _ _ _ _ _ _ _ _ _ hcv3 htb]

/-- C9 witness: a concrete run — first call at time 0 (one request, entry
stored), a call at time 100 (zero requests, cached snapshot), and calls at
time 400 (stale entry ignored: one request each), the failing one leaving
the stale entry in storage. -/
theorem C9_ttl_cache_round_trips_witness :
    (fetch_realtime_data "Coal" (fun _ => NetOutcome.status 200 (some [5]))
        0 5 [] 3 =
       .ok ⟨process_hourly_data "Coal" [5] 5,
            update_cache [] "Coal" 0 (process_hourly_data "Coal" [5] 5),
            1, []⟩) ∧
    (fetch_realtime_data "Coal" (fun _ => NetOutcome.otherExc) 100 5
        (update_cache [] "Coal" 0 (process_hourly_data "Coal" [5] 5)) 3 =
       .ok ⟨process_hourly_data "Coal" [5] 5,
            update_cache [] "Coal" 0 (process_hourly_data "Coal" [5] 5),
            0, []⟩) ∧
    (fetch_realtime_data "Coal" (fun _ => NetOutcome.status 200 (some [6]))
        400 5
        (update_cache [] "Coal" 0 (process_hourly_data "Coal" [5] 5)) 3 =
       .ok ⟨process_hourly_data "Coal" [6] 5,
            update_cache
              (update_cache [] "Coal" 0 (process_hourly_data "Coal" [5] 5))
              "Coal" 400 (process_hourly_data "Coal" [6] 5), 1, []⟩) ∧
    (fetch_realtime_data "Coal" (fun _ => NetOutcome.otherExc) 400 5
        (update_cache [] "Coal" 0 (process_hourly_data "Coal" [5] 5)) 3 =
       .ok ⟨get_fallback_hourly_data "Coal" 5,
            update_cache [] "Coal" 0 (process_hourly_data "Coal" [5] 5),
            1, []⟩) ∧
    dictGet? (update_cache [] "Coal" 0 (process_hourly_data "Coal" [5] 5))
        "Coal" =
      some (0, process_hourly_data "Coal" [5] 5) :=
  C9_ttl_cache_round_trips "Coal" (fun _ => NetOutcome.status 200 (some [5]))
    (fun _ => NetOutcome.otherExc) (fun _ => NetOutcome.status 200 (some [6]))
    (fun _ => NetOutcome.otherExc) 0 100 400 5 5 5 [] 5 [] 6 []
    rfl rfl rfl rfl (by norm_num) (by norm_num)

/-- C10 scenario data: a cached snapshot whose hourly efficiency map is
missing (empty), with production and cost maps present. -/
def missingEffSnapshot : HourlyData := ⟨0, 0, 0, [(0, 5)], [], [(0, 1)]⟩

/-- C10 scenario data: a structurally valid cached snapshot (all three
hourly maps non-empty). -/
def tinyValidSnapshot : HourlyData := ⟨0, 0, 0, [(0, 8)], [(0, 1)], [(0, 2)]⟩

/-- C10 scenario: exactly one source cached, and it is missing its hourly
efficiency map. -/
def soloInvalidCache : CacheMap := [("Solar", (0, missingEffSnapshot))]

/-- C10 scenario: the invalid Solar entry alongside a valid Wind entry. -/
def mixedCache : CacheMap :=
  [("Solar", (0, missingEffSnapshot)), ("Wind", (0, tinyValidSnapshot))]

/-- Whether the analyzer output is an assembled report (which always carries
the `=== System-wide Metrics ===` section, in one of its two variants). -/
def rendersSystem : AnalyzeReport → Bool
  | .report _ _ => true
  | _ => false

/-- The per-source block names of an assembled report. -/
def blockNames : AnalyzeReport → Option (List String)
  | .report bs _ => some (bs.map SourceBlock.name)
  | _ => none

/-- C10 counterexample: with exactly one source cached and that source
missing its hourly efficiency map, `analyze_hourly_metrics` returns the
"no valid data" message — no system-wide section is rendered, contrary to
the claim that the report with its system-wide section would still render. -/
theorem C10_counterexample :
    analyze_hourly_metrics soloInvalidCache 0 = .noValidData ∧
    rendersSystem (analyze_hourly_metrics soloInvalidCache 0) = false := by
  decide

/-- C10 amended: with zero cached sources the analyzer returns the fixed
no-data message; a cached source missing its hourly efficiency map is
skipped, not fatal — when it is the only cached source nothing valid
remains and the distinct no-valid-data message is returned, while with a
further valid source cached the report still renders (system-wide section
included) from the valid sources only. -/
theorem C10_amended_skip_and_messages :
    (∀ (cache : CacheMap) (current_hour : ℕ),
       (∀ s ∈ sourceNames, dictGet? cache s = none) →
       analyze_hourly_metrics cache current_hour = .noData) ∧
    analyze_hourly_metrics soloInvalidCache 0 = .noValidData ∧
    blockNames (analyze_hourly_metrics mixedCache 0) = some ["Wind"] ∧
    rendersSystem (analyze_hourly_metrics mixedCache 0) = true := by
  refine ⟨?_, by decide, ?_⟩
  · intro cache cur h
    have hS := h "Solar" (by simp [sourceNames])
    have hW := h "Wind" (by simp [sourceNames])
    have hC := h "Coal" (by simp [sourceNames])
    have hN := h "Natural Gas" (by simp [sourceNames])
    simp [analyze_hourly_metrics, sourceNames, hS, hW, hC, hN]
  · have hgS : dictGet? mixedCache "Solar" = some (0, missingEffSnapshot) :=
      rfl
    have hgW : dictGet? mixedCache "Wind" = some (0, tinyValidSnapshot) := rfl
    have hgC : dictGet? mixedCache "Coal" = none := rfl
    have hgN : dictGet? mixedCache "Natural Gas" = none := rfl
    have hSolar : ∀ (hs : List ℕ) acc, analyzeStep mixedCache hs acc "Solar" =
        acc := by
      intro hs acc
      simp [analyzeStep, hgS, missingEffSnapshot]
    have hCoal : ∀ (hs : List ℕ) acc, analyzeStep mixedCache hs acc "Coal" =
        acc := by
      intro hs acc
      simp [analyzeStep, hgC]
    have hNG : ∀ (hs : List ℕ) acc,
        analyzeStep mixedCache hs acc "Natural Gas" = acc := by
      intro hs acc
      simp [analyzeStep, hgN]
    have hWindCount : ∀ (hs : List ℕ) (t : List (ℕ × ℚ)),
        (analyzeStep mixedCache hs ([], t, 0) "Wind").2.2 = 1 := by
      intro hs t
      simp [analyzeStep, hgW, tinyValidSnapshot]
    have hWindNames : ∀ (hs : List ℕ) (t : List (ℕ × ℚ)),
        (analyzeStep mixedCache hs ([], t, 0) "Wind").1.map
          SourceBlock.name = ["Wind"] := by
      intro hs t
      simp [analyzeStep, hgW, tinyValidSnapshot]
    have hany : ((["Solar", "Wind", "Coal", "Natural Gas"] : List String).any
        fun s => (dictGet? mixedCache s).isSome) = true := by decide
    simp only [analyze_hourly_metrics, sourceNames, List.foldl_cons,
      List.foldl_nil, hSolar, hCoal, hNG]
    rw [if_neg (not_not_intro hany), hWindCount, if_neg one_ne_zero]
    constructor
    · split <;> simp [blockNames, hWindNames]
    · split <;> simp [rendersSystem]

/-- C10 amended witness: the no-data case applied at the concrete empty
cache, together with the concrete no-valid-data case. -/
theorem C10_amended_skip_and_messages_witness :
    analyze_hourly_metrics [] 0 = .noData ∧
    analyze_hourly_metrics soloInvalidCache 0 = .noValidData :=
  ⟨C10_amended_skip_and_messages.1 [] 0 (fun _ _ => rfl),
   C10_amended_skip_and_messages.2.1⟩

end EnergyAnalyzer
